import Mathlib

/-!
A verification development for the schedviz FTrace trace collector
(`util/trace.cc`, `util/trace.h`, `util/status.h`).

The C++ program is shallowly embedded: every kernel/OS interaction
(`open`, `close`, `read`, `write`, `WriteString`) is driven by an explicit
"world" argument that scripts the outcome of each call, and each modelled
function additionally returns the observable effects it performed (an action
log, the set of file descriptors currently open, the bytes appended to output
files).  Machine integers in the source are small counters and file
descriptors, modelled as `Nat`; `Status` is translated verbatim from
`util/status.h`.
-/

/-- Status codes, translated from `util/status.h` (`StatusCode`): the program
only ever uses `kOk` and `kInternal`. -/
inductive StatusCode where
  | kOk
  | kInternal
deriving DecidableEq, Repr

/-- Translated from `util/status.h` (`class Status`): a code plus a message. -/
structure Status where
  code : StatusCode
  message : String
deriving DecidableEq, Repr

/-- `Status::InternalError`, from `util/status.h`. -/
def Status.internalError (msg : String) : Status :=
  ⟨StatusCode.kInternal, msg⟩

/-- `Status::OkStatus`, from `util/status.h`: code `kOk`, empty message. -/
def Status.okStatus : Status :=
  ⟨StatusCode.kOk, ""⟩

/-- `Status::ok`, from `util/status.h`. -/
def Status.ok (s : Status) : Bool :=
  s.code == StatusCode.kOk

/-- The possible outcomes of one non-blocking `read` call on a per-CPU
`trace_pipe_raw` stream, as distinguished by `FTraceTracer::CopyCPUBuffer`
(trace.cc:460-468):
* `data bytes` — `read` returned `n > 0` bytes (`bytes` is the chunk read);
* `zero` — `read` returned `0`;
* `wouldBlock` — `read` returned `-1` with `errno == EAGAIN`;
* `readErr` — `read` returned `-1` with `errno != EAGAIN`. -/
inductive ReadResult where
  | data (bytes : List Nat)
  | zero
  | wouldBlock
  | readErr
deriving DecidableEq, Repr

/-- The `while (true)` loop of `FTraceTracer::CopyCPUBuffer`
(trace.cc:460-471), translated from the source.  `reads` scripts the
successive results of the `read` call on `in_fd`; an exhausted script behaves
like a stream with no further data.  Returns the status and the bytes
appended (via `write(out_fd, ...)`) to the output file, in order.  A read
chunk appended before a later failing read stays appended. -/
def copyCPUBufferLoop (in_fd : Nat) : List ReadResult → Status × List Nat
  | [] => (Status.okStatus, [])
  | ReadResult.readErr :: _ =>
      (Status.internalError ("Unable to read cpu file " ++ toString in_fd), [])
  | ReadResult.zero :: _ => (Status.okStatus, [])
  | ReadResult.wouldBlock :: _ => (Status.okStatus, [])
  | ReadResult.data bytes :: rest =>
      let t := copyCPUBufferLoop in_fd rest
      (t.fst, bytes ++ t.snd)

/-- `FTraceTracer::CopyCPUBuffer` (trace.cc:454-473), translated from the
source: guarded by the `is_tracing_` check, then the read/append loop. -/
def copyCPUBuffer (is_tracing : Bool) (in_fd : Nat) (reads : List ReadResult) :
    Status × List Nat :=
  if is_tracing then copyCPUBufferLoop in_fd reads
  else (Status.internalError "Not currently in a trace", [])

/-- Spec-side characterization used by C3: a non-blocking read script makes
the drain fail exactly when a read reports an error other than would-block
before the script reaches an end-of-data (`zero`) or would-block result. -/
def readScriptFails : List ReadResult → Bool
  | [] => false
  | ReadResult.readErr :: _ => true
  | ReadResult.zero :: _ => false
  | ReadResult.wouldBlock :: _ => false
  | ReadResult.data _ :: rest => readScriptFails rest

/-- World for `FTraceTracer::WriteString` (trace.cc:515-525), which runs
`std::ofstream out(path); out << data; out.close();` and reports an error iff
`out.bad()`.  Per the C++ iostream semantics: a failed open sets only
`failbit` (`badbit` stays clear); insertion through a stream whose `failbit`
is set is a no-op; `close()` on a never-opened stream sets `failbit` only;
`badbit` is set exactly when flushing the buffered characters to the OS fails
(a failed or short write).  The world says whether the open succeeds, whether
the flush fails, and how many characters reached the file if it did. -/
structure OfstreamWorld where
  openOk : Bool
  flushBad : Bool
  flushedLen : Nat

/-- `FTraceTracer::WriteString` (trace.cc:515-525), translated from the
source together with the iostream semantics recorded on `OfstreamWorld`.
Returns the status (`InternalError` iff `out.bad()`, i.e. iff the stream was
opened and the flush failed) and the content now in the file (`none` when the
file was never opened, so its previous content is untouched). -/
def writeString (w : OfstreamWorld) (path data : String) :
    Status × Option String :=
  if w.openOk then
    if w.flushBad then
      (Status.internalError ("Failed to write to" ++ path),
       some (String.mk (data.data.take w.flushedLen)))
    else (Status.okStatus, some data)
  else (Status.okStatus, none)

/-- World scripting the OS outcomes consulted by `FTraceTracer::ConfigureFTrace`
and `FTraceTracer::EnableEvents` (trace.cc:185-251):
* `writeFails p d` — whether the `WriteString(p, d)` call reports failure;
* `freeOpen` — the descriptor returned by `open(free_buffer, O_RDONLY)`,
  `none` for `-1`;
* `setEventOpen` — the descriptor returned by opening `set_event`;
* `eventWriteShort e` — whether the `write` of event `e` to `set_event` is
  short (`!= event.size()`). -/
structure ConfigWorld where
  writeFails : String → String → Bool
  freeOpen : Option Nat
  setEventOpen : Option Nat
  eventWriteShort : String → Bool

/-- The `Status` outcome of a `WriteString(path, data)` call as scripted by a
`ConfigWorld`: on failure the message is the one built at trace.cc:521-522
(note the source's missing space after "to"). -/
def configWrite (w : ConfigWorld) (path data : String) : Status :=
  if w.writeFails path data then
    Status.internalError ("Failed to write to" ++ path)
  else Status.okStatus

/-- The kernel-control actions attempted by the configuration phase, in the
order they are attempted (instrumentation of the shallow embedding). -/
inductive CAction where
  | writeCtl (path data : String)
  | openFree
  | openSetEvent
  | writeEvent (e : String)
  | closeSetEvent
deriving DecidableEq, Repr

/-- The `for (const auto& event : events_)` loop of
`FTraceTracer::EnableEvents` (trace.cc:241-248), translated from the source,
after `set_event` was opened: writes each event in order; a short write
closes the fd and returns the failure; on success the fd is closed at the
end.  Returns the status and the attempted actions. -/
def enableEventsLoop (w : ConfigWorld) (events_path : String) :
    List String → Status × List CAction
  | [] => (Status.okStatus, [CAction.closeSetEvent])
  | e :: rest =>
      if w.eventWriteShort e then
        (Status.internalError ("Failed to write " ++ e ++ " to " ++ events_path),
         [CAction.writeEvent e, CAction.closeSetEvent])
      else
        let t := enableEventsLoop w events_path rest
        (t.fst, CAction.writeEvent e :: t.snd)

/-- `FTraceTracer::EnableEvents` (trace.cc:231-251), translated from the
source: the `is_tracing_` guard, the open of `set_event`
(`O_WRONLY | O_TRUNC`), then the event-write loop. -/
def enableEvents (w : ConfigWorld) (is_tracing : Bool) (root : String)
    (events : List String) : Status × List CAction :=
  if is_tracing then (Status.internalError "Already Tracing", [])
  else
    let events_path := root ++ "/set_event"
    match w.setEventOpen with
    | none =>
        (Status.internalError ("Could not open " ++ events_path),
         [CAction.openSetEvent])
    | some _ =>
        let t := enableEventsLoop w events_path events
        (t.fst, CAction.openSetEvent :: t.snd)

/-- `FTraceTracer::ConfigureFTrace` (trace.cc:185-229), translated from the
source: the `is_tracing_` guard, then in order `tracing_on=0`, the
`free_buffer` open, `current_tracer=nop`, `trace_options=disable_on_free`,
`buffer_size_kb=<size>`, and `EnableEvents`, each early-returning its failure.
Returns the status, the attempted actions in order, and the value of
`free_fd_` afterwards (`none` when the guard was never opened; it stays open
once opened — no rollback on a later failure). -/
def configureFTrace (w : ConfigWorld) (is_tracing : Bool) (root : String)
    (buffer_size : Nat) (events : List String) :
    Status × List CAction × Option Nat :=
  if is_tracing then (Status.internalError "Already Tracing", [], none)
  else
    let a1 := CAction.writeCtl (root ++ "/tracing_on") "0"
    let s1 := configWrite w (root ++ "/tracing_on") "0"
    if s1.ok then
      match w.freeOpen with
      | none =>
          (Status.internalError "unable to open free_buffer file",
           [a1, CAction.openFree], none)
      | some ffd =>
          let a3 := CAction.writeCtl (root ++ "/current_tracer") "nop"
          let s3 := configWrite w (root ++ "/current_tracer") "nop"
          if s3.ok then
            let a4 := CAction.writeCtl (root ++ "/trace_options") "disable_on_free"
            let s4 := configWrite w (root ++ "/trace_options") "disable_on_free"
            if s4.ok then
              let a5 := CAction.writeCtl (root ++ "/buffer_size_kb")
                (toString buffer_size)
              let s5 := configWrite w (root ++ "/buffer_size_kb")
                (toString buffer_size)
              if s5.ok then
                let r6 := enableEvents w is_tracing root events
                (r6.fst, [a1, CAction.openFree, a3, a4, a5] ++ r6.snd, some ffd)
              else (s5, [a1, CAction.openFree, a3, a4, a5], some ffd)
            else (s4, [a1, CAction.openFree, a3, a4], some ffd)
          else (s3, [a1, CAction.openFree, a3], some ffd)
    else (s1, [a1], none)

/-- Control actions named by the spec's configuration order (C4): projects
away the `set_event` open/close bookkeeping, which the spec's step (f) does
not name as a separate kernel-control action. -/
def isControlAction : CAction → Bool
  | CAction.openSetEvent => false
  | CAction.closeSetEvent => false
  | _ => true

/-- Generic first-failure runner used by the spec-side model of
configuration: attempts each step in order (logging its action, when it has
one), and stops at the first step whose status is not ok, returning that
first failure. -/
def runSteps : List (Option CAction × Status) → Status × List CAction
  | [] => (Status.okStatus, [])
  | (a, s) :: rest =>
      let lg := match a with
        | some act => [act]
        | none => []
      if s.ok then
        let t := runSteps rest
        (t.fst, lg ++ t.snd)
      else (s, lg)

/-- Modelled from the spec's words (§4.2, the `Idle → Configuring`
transition), as the reference model for C4: perform, in strict order,
(a) `tracing_on=0`, (b) acquire the buffer-clear guard, (c) select the no-op
tracer, (d) set `disable_on_free`, (e) set the buffer size, (f) write each
configured event identifier, in the configured order, to the event-selection
control; the first failing sub-step aborts and is the failure surfaced, no
earlier successful write is rolled back, and the guard is left closed exactly
when it had not yet been (successfully) opened. -/
def specConfigure (w : ConfigWorld) (root : String) (buffer_size : Nat)
    (events : List String) : Status × List CAction × Option Nat :=
  let steps : List (Option CAction × Status) :=
    [(some (CAction.writeCtl (root ++ "/tracing_on") "0"),
        configWrite w (root ++ "/tracing_on") "0"),
     (some CAction.openFree,
        match w.freeOpen with
        | none => Status.internalError "unable to open free_buffer file"
        | some _ => Status.okStatus),
     (some (CAction.writeCtl (root ++ "/current_tracer") "nop"),
        configWrite w (root ++ "/current_tracer") "nop"),
     (some (CAction.writeCtl (root ++ "/trace_options") "disable_on_free"),
        configWrite w (root ++ "/trace_options") "disable_on_free"),
     (some (CAction.writeCtl (root ++ "/buffer_size_kb") (toString buffer_size)),
        configWrite w (root ++ "/buffer_size_kb") (toString buffer_size))]
    ++ (match w.setEventOpen with
        | none =>
            [(none, Status.internalError ("Could not open " ++ (root ++ "/set_event")))]
        | some _ =>
            events.map fun e =>
              (some (CAction.writeEvent e),
               if w.eventWriteShort e then
                 Status.internalError
                   ("Failed to write " ++ e ++ " to " ++ (root ++ "/set_event"))
               else Status.okStatus))
  let r := runSteps steps
  (r.fst, r.snd,
   if (configWrite w (root ++ "/tracing_on") "0").ok then w.freeOpen else none)

/-- The `for (int i = 0; i < cpu_count; i++)` loop of
`FTraceTracer::CopyCPUBuffers` (trace.cc:411-417), translated from the
source, in counter form: `i` is the next CPU index, `n` the number of
iterations left.  `fds_[i]` uses `std::vector::operator[]`, which performs no
bounds check; the embedding records in its second component the list of
indices at which `fds_[i]` was evaluated (the instrumentation that lets C10
speak about out-of-bounds accesses) and uses `getD` as the value read.  The
third component records, per drained CPU, the bytes its drain appended.
The loop returns the first failing drain's status. -/
def copyCPUBuffersLoop (is_tracing : Bool) (fds : List (Nat × Nat))
    (reads : Nat → List ReadResult) :
    Nat → Nat → Status × List Nat × List (Nat × List Nat)
  | _, 0 => (Status.okStatus, [], [])
  | i, n + 1 =>
      let cpu_fds := fds.getD i (0, 0)
      let r := copyCPUBuffer is_tracing cpu_fds.fst (reads i)
      if r.fst.ok then
        let t := copyCPUBuffersLoop is_tracing fds reads (i + 1) n
        (t.fst, i :: t.2.1, (i, r.snd) :: t.2.2)
      else (r.fst, [i], [(i, r.snd)])

/-- `FTraceTracer::CopyCPUBuffers` (trace.cc:406-420), translated from the
source: the `is_tracing_` guard, then `cpu_count = get_nprocs()` — re-sampled
at every call, which is why `nprocs` is an argument here rather than a stored
field — and the per-CPU drain loop over indices `0 .. nprocs-1`. -/
def copyCPUBuffers (is_tracing : Bool) (nprocs : Nat) (fds : List (Nat × Nat))
    (reads : Nat → List ReadResult) :
    Status × List Nat × List (Nat × List Nat) :=
  if is_tracing then copyCPUBuffersLoop is_tracing fds reads 0 nprocs
  else (Status.internalError "Not currently in a trace", [], [])

/-- The capture-window loop of `FTraceTracer::CollectTrace`
(trace.cc:386-394), translated from the source: while the wall clock allows
another iteration (modelled by the `fuel` counter — the number of times
`absl::Now() <= start_time + seconds` still holds), run one
`CopyCPUBuffers` pass; on the first failing pass record its status in
`failedCopyStatus` and break.  `tick` numbers the passes; `readsAt t i` is
cpu `i`'s read script during pass `t`, `nprocsAt t` the `get_nprocs()` value
during pass `t`.  Returns `failedCopyStatus` (ok when the deadline was
reached without a failure) and the append log: one entry `(t, c, bytes)` per
CPU `c` drained during pass `t`. -/
def captureLoop (fds : List (Nat × Nat)) (readsAt : Nat → Nat → List ReadResult)
    (nprocsAt : Nat → Nat) : Nat → Nat → Status × List (Nat × Nat × List Nat)
  | _, 0 => (Status.okStatus, [])
  | tick, fuel + 1 =>
      let pass := copyCPUBuffers true (nprocsAt tick) fds (readsAt tick)
      let lg := pass.2.2.map fun p => (tick, p.fst, p.snd)
      if pass.fst.ok then
        let t := captureLoop fds readsAt nprocsAt (tick + 1) fuel
        (t.fst, lg ++ t.snd)
      else (pass.fst, lg)

/-- The mutable session state of `FTraceTracer` relevant to the claims
(`util/trace.h:146-151`): the `is_tracing_` flag, the per-CPU descriptor
pairs `fds_` (read side, write side), and the buffer-clear guard descriptor
`free_fd_`.  `openFds` is instrumentation: the descriptors currently open
from the OS point of view, so that claims about leaked or closed streams can
be stated (`open` conses onto it, `close` erases from it). -/
structure TracerState where
  is_tracing : Bool
  fds : List (Nat × Nat)
  free_fd : Nat
  openFds : List Nat
deriving DecidableEq, Repr

/-- The externally visible actions of the teardown path (instrumentation):
a `WriteString` to a kernel control file, the `close(free_fd_)` call site,
and a `close` of an ordinary descriptor. -/
inductive TAction where
  | writeCtl (path data : String)
  | closeFree
  | closeFd (fd : Nat)
deriving DecidableEq, Repr

/-- The close actions emitted by `FTraceTracer::ClearCPUFDs`
(trace.cc:493-499): for each pair in order, close the read side then the
write side. -/
def closeFdsActions : List (Nat × Nat) → List TAction
  | [] => []
  | p :: rest => TAction.closeFd p.fst :: TAction.closeFd p.snd :: closeFdsActions rest

/-- Effect of `FTraceTracer::ClearCPUFDs` on the set of open descriptors:
each pair's two descriptors are closed (erased) in order. -/
def eraseFds : List (Nat × Nat) → List Nat → List Nat
  | [], opened => opened
  | p :: rest, opened => eraseFds rest ((opened.erase p.fst).erase p.snd)

/-- `FTraceTracer::ClearCPUFDs` (trace.cc:493-499), translated from the
source: close both descriptors of every pair and clear `fds_`. -/
def clearCPUFDs (st : TracerState) : TracerState × List TAction :=
  ({ st with fds := [], openFds := eraseFds st.fds st.openFds },
   closeFdsActions st.fds)

/-- World scripting the OS outcomes consulted by `FTraceTracer::CollectTrace`
and `FTraceTracer::StopTrace` (trace.cc:335-452):
* `createDirsOk` — whether the `traces` output directory exists or could be
  created;
* `nprocs` — `get_nprocs()` at stream-opening time;
* `openIn i` / `openOut i` — the descriptors returned by opening cpu `i`'s
  `trace_pipe_raw` read side / `traces/cpu<i>` write side (`none` for `-1`);
* `writeFails p d` — whether `WriteString(p, d)` reports failure;
* `loopNprocs t` / `loopReads t i` — `get_nprocs()` and cpu `i`'s read script
  during capture-loop pass `t`;
* `ticks` — how many loop iterations the wall clock allows;
* `stopNprocs` / `stopReads i` — the same for the final copy inside
  `StopTrace(true)`. -/
structure CollectWorld where
  createDirsOk : Bool
  nprocs : Nat
  openIn : Nat → Option Nat
  openOut : Nat → Option Nat
  writeFails : String → String → Bool
  loopNprocs : Nat → Nat
  loopReads : Nat → Nat → List ReadResult
  ticks : Nat
  stopNprocs : Nat
  stopReads : Nat → List ReadResult

/-- The `Status` outcome of a `WriteString(path, data)` call as scripted by a
`CollectWorld` (message as built at trace.cc:521-522). -/
def collectWrite (w : CollectWorld) (path data : String) : Status :=
  if w.writeFails path data then
    Status.internalError ("Failed to write to" ++ path)
  else Status.okStatus

/-- `FTraceTracer::StopTrace` (trace.cc:422-452), translated from the source:
the `is_tracing_` guard; the `tracing_on=0` write — on failure `free_fd_` is
closed, `is_tracing_` cleared and the failure returned; when `final_copy` is
set, one last `CopyCPUBuffers` pass — on failure likewise close `free_fd_`,
clear `is_tracing_`, return the failure; otherwise `ClearCPUFDs`, close
`free_fd_`, clear `is_tracing_` and return ok.  Returns the status, the new
state and the action log. -/
def stopTrace (w : CollectWorld) (root : String) (st : TracerState)
    (final_copy : Bool) : Status × TracerState × List TAction :=
  if st.is_tracing then
    let a1 := TAction.writeCtl (root ++ "/tracing_on") "0"
    let s1 := collectWrite w (root ++ "/tracing_on") "0"
    if s1.ok then
      let pass :=
        if final_copy then
          (copyCPUBuffers st.is_tracing w.stopNprocs st.fds w.stopReads).fst
        else Status.okStatus
      if pass.ok then
        (Status.okStatus,
         { st with is_tracing := false, fds := [],
                   openFds := (eraseFds st.fds st.openFds).erase st.free_fd },
         a1 :: closeFdsActions st.fds ++ [TAction.closeFree])
      else
        (pass,
         { st with is_tracing := false, openFds := st.openFds.erase st.free_fd },
         [a1, TAction.closeFree])
    else
      (s1,
       { st with is_tracing := false, openFds := st.openFds.erase st.free_fd },
       [a1, TAction.closeFree])
  else (Status.internalError "Not currently in a trace", st, [])

/-- The stream-opening loop of `FTraceTracer::CollectTrace`
(trace.cc:352-370), translated from the source, in counter form: for each
cpu `i`, open the `trace_pipe_raw` read side (failure returns "Unable to
open ..." at once, leaving every descriptor opened so far open), then the
`traces/cpu<i>` write side (failure returns "Unable to create ...", likewise
leaving the just-opened read side and all earlier descriptors open), then
append the pair to `fds_`. -/
def openStreams (w : CollectWorld) (root : String) :
    Nat → Nat → TracerState → Status × TracerState
  | _, 0, st => (Status.okStatus, st)
  | i, n + 1, st =>
      let cpuName := "cpu" ++ toString i
      let cpuPath := root ++ "/per_cpu/" ++ cpuName ++ "/trace_pipe_raw"
      match w.openIn i with
      | none => (Status.internalError ("Unable to open " ++ cpuPath), st)
      | some in_fd =>
          let st1 := { st with openFds := in_fd :: st.openFds }
          match w.openOut i with
          | none =>
              (Status.internalError ("Unable to create traces/" ++ cpuName), st1)
          | some out_fd =>
              openStreams w root (i + 1) n
                { st1 with openFds := out_fd :: st1.openFds,
                           fds := st1.fds ++ [(in_fd, out_fd)] }

/-- The state right after `FTraceTracer::CollectTrace` has opened every
stream and set `is_tracing_ = true` (trace.cc:349-378), assuming the opens
all succeeded: `ClearCPUFDs` on entry, the opening loop, then the flag. -/
def tracingState (w : CollectWorld) (root : String) (st : TracerState) :
    TracerState :=
  { (openStreams w root 0 w.nprocs (clearCPUFDs st).fst).snd with
      is_tracing := true }

/-- `FTraceTracer::CollectTrace` (trace.cc:335-404), translated from the
source: the `is_tracing_` guard; creation of the `traces` directory;
`ClearCPUFDs`; the stream-opening loop over `get_nprocs()` CPUs;
`tracing_on=1`; the capture-window loop; then `StopTrace(true)`, and — when a
drain pass inside the loop had failed — the merge of the two failure messages
with `"\n\n"` in between (trace.cc:396-403).  Returns the status and the
final session state (the destructor is modelled separately as
`stopTrace _ _ _ false`). -/
def collectTrace (w : CollectWorld) (root : String) (st : TracerState) :
    Status × TracerState :=
  if st.is_tracing then (Status.internalError "Already Tracing", st)
  else if !w.createDirsOk then
    (Status.internalError "Unable to create directories for path: traces", st)
  else
    let r1 := openStreams w root 0 w.nprocs (clearCPUFDs st).fst
    if r1.fst.ok then
      let s2 := collectWrite w (root ++ "/tracing_on") "1"
      if s2.ok then
        let st2 := { r1.snd with is_tracing := true }
        let lp := captureLoop st2.fds w.loopReads w.loopNprocs 0 w.ticks
        let stp := stopTrace w root st2 true
        if lp.fst.ok then (stp.fst, stp.2.1)
        else
          (Status.internalError
             (lp.fst.message ++ "\n\n" ++ stp.fst.message), stp.2.1)
      else (s2, r1.snd)
    else (r1.fst, r1.snd)

@[simp]
theorem okStatus_ok : Status.okStatus.ok = true := rfl

@[simp]
theorem internalError_ok (m : String) : (Status.internalError m).ok = false := rfl

@[simp]
theorem okStatus_code : Status.okStatus.code = StatusCode.kOk := rfl

@[simp]
theorem internalError_code (m : String) :
    (Status.internalError m).code = StatusCode.kInternal := rfl

theorem copyCPUBufferLoop_fail_eq (in_fd : Nat) (reads : List ReadResult)
    (h : (copyCPUBufferLoop in_fd reads).fst.ok = false) :
    (copyCPUBufferLoop in_fd reads).fst =
      Status.internalError ("Unable to read cpu file " ++ toString in_fd) := by
  induction reads with
  | nil => simp [copyCPUBufferLoop] at h
  | cons r rest ih =>
      cases r with
      | data bytes =>
          simp only [copyCPUBufferLoop] at h ⊢
          exact ih h
      | zero => simp [copyCPUBufferLoop] at h
      | wouldBlock => simp [copyCPUBufferLoop] at h
      | readErr => rfl

theorem buffersLoop_all_ok (fds : List (Nat × Nat))
    (reads : Nat → List ReadResult) :
    ∀ n i,
      (∀ j, j < n →
        (copyCPUBuffer true (fds.getD (i + j) (0, 0)).fst (reads (i + j))).fst.ok = true) →
      copyCPUBuffersLoop true fds reads i n =
        (Status.okStatus, List.range' i n,
         (List.range' i n).map fun j =>
           (j, (copyCPUBuffer true (fds.getD j (0, 0)).fst (reads j)).snd)) := by
  intro n
  induction n with
  | zero => intro i _; simp [copyCPUBuffersLoop]
  | succ m ih =>
      intro i h
      have h0 := h 0 (Nat.succ_pos m)
      simp only [Nat.add_zero] at h0
      have hrest : ∀ j, j < m →
          (copyCPUBuffer true (fds.getD (i + 1 + j) (0, 0)).fst
            (reads (i + 1 + j))).fst.ok = true := by
        intro j hj
        have := h (j + 1) (Nat.succ_lt_succ hj)
        simpa [Nat.add_comm, Nat.add_assoc, Nat.add_left_comm] using this
      simp only [copyCPUBuffersLoop, h0, if_true, ih (i + 1) hrest,
        List.range'_succ, List.map_cons]

theorem buffersLoop_fail (fds : List (Nat × Nat))
    (reads : Nat → List ReadResult) :
    ∀ k i n, k < n →
      (∀ j, j < k →
        (copyCPUBuffer true (fds.getD (i + j) (0, 0)).fst (reads (i + j))).fst.ok = true) →
      (copyCPUBuffer true (fds.getD (i + k) (0, 0)).fst (reads (i + k))).fst.ok = false →
      copyCPUBuffersLoop true fds reads i n =
        ((copyCPUBuffer true (fds.getD (i + k) (0, 0)).fst (reads (i + k))).fst,
         List.range' i (k + 1),
         (List.range' i (k + 1)).map fun j =>
           (j, (copyCPUBuffer true (fds.getD j (0, 0)).fst (reads j)).snd)) := by
  intro k
  induction k with
  | zero =>
      intro i n hn _ hfail
      cases n with
      | zero => exact absurd hn (Nat.lt_irrefl 0)
      | succ m =>
          simp only [Nat.add_zero] at hfail
          simp only [copyCPUBuffersLoop]
          rw [hfail]
          simp [List.range'_succ]
  | succ l ih =>
      intro i n hn hok hfail
      cases n with
      | zero => exact absurd hn (Nat.not_lt_zero _)
      | succ m =>
          have h0 := hok 0 (Nat.succ_pos l)
          simp only [Nat.add_zero] at h0
          have hok' : ∀ j, j < l →
              (copyCPUBuffer true (fds.getD (i + 1 + j) (0, 0)).fst
                (reads (i + 1 + j))).fst.ok = true := by
            intro j hj
            have := hok (j + 1) (Nat.succ_lt_succ hj)
            simpa [Nat.add_comm, Nat.add_assoc, Nat.add_left_comm] using this
          have hfail' :
              (copyCPUBuffer true (fds.getD (i + 1 + l) (0, 0)).fst
                (reads (i + 1 + l))).fst.ok = false := by
            simpa [Nat.add_comm, Nat.add_assoc, Nat.add_left_comm] using hfail
          have hl : l < m := Nat.lt_of_succ_lt_succ hn
          have heq : i + 1 + l = i + (l + 1) := by omega
          have hrec := ih (i + 1) m hl hok' hfail'
          rw [heq] at hrec
          simp only [copyCPUBuffersLoop, h0, if_true, hrec, List.range'_succ,
            List.map_cons]

theorem buffersLoop_mem (fds : List (Nat × Nat)) (reads : Nat → List ReadResult) :
    ∀ n i j, j ∈ (copyCPUBuffersLoop true fds reads i n).2.1 →
      i ≤ j ∧ j < i + n := by
  intro n
  induction n with
  | zero => intro i j hj; simp [copyCPUBuffersLoop] at hj
  | succ m ih =>
      intro i j hj
      simp only [copyCPUBuffersLoop] at hj
      by_cases hc :
          (copyCPUBuffer true (fds.getD i (0, 0)).fst (reads i)).fst.ok = true
      · rw [if_pos hc] at hj
        simp only [List.mem_cons] at hj
        cases hj with
        | inl h => omega
        | inr h =>
            have := ih (i + 1) j h
            omega
      · rw [if_neg hc] at hj
        simp only [List.mem_singleton] at hj
        omega

theorem captureLoop_fail (fds : List (Nat × Nat))
    (readsAt : Nat → Nat → List ReadResult) (nprocsAt : Nat → Nat) :
    ∀ T t0 fuel, T < fuel →
      (∀ u, u < T →
        (copyCPUBuffers true (nprocsAt (t0 + u)) fds (readsAt (t0 + u))).fst.ok = true) →
      (copyCPUBuffers true (nprocsAt (t0 + T)) fds (readsAt (t0 + T))).fst.ok = false →
      captureLoop fds readsAt nprocsAt t0 fuel =
        ((copyCPUBuffers true (nprocsAt (t0 + T)) fds (readsAt (t0 + T))).fst,
         (List.range' t0 (T + 1)).flatMap fun t =>
           (copyCPUBuffers true (nprocsAt t) fds (readsAt t)).2.2.map fun p =>
             (t, p.fst, p.snd)) := by
  intro T
  induction T with
  | zero =>
      intro t0 fuel hf _ hfail
      cases fuel with
      | zero => exact absurd hf (Nat.lt_irrefl 0)
      | succ f =>
          simp only [Nat.add_zero] at hfail
          simp only [captureLoop]
          rw [hfail]
          simp [List.range'_succ]
  | succ S ih =>
      intro t0 fuel hf hok hfail
      cases fuel with
      | zero => exact absurd hf (Nat.not_lt_zero _)
      | succ f =>
          have h0 := hok 0 (Nat.succ_pos S)
          simp only [Nat.add_zero] at h0
          have hok' : ∀ u, u < S →
              (copyCPUBuffers true (nprocsAt (t0 + 1 + u)) fds
                (readsAt (t0 + 1 + u))).fst.ok = true := by
            intro u hu
            have := hok (u + 1) (Nat.succ_lt_succ hu)
            simpa [Nat.add_comm, Nat.add_assoc, Nat.add_left_comm] using this
          have hfail' :
              (copyCPUBuffers true (nprocsAt (t0 + 1 + S)) fds
                (readsAt (t0 + 1 + S))).fst.ok = false := by
            simpa [Nat.add_comm, Nat.add_assoc, Nat.add_left_comm] using hfail
          have hS : S < f := Nat.lt_of_succ_lt_succ hf
          have heq : t0 + 1 + S = t0 + (S + 1) := by omega
          have hrec := ih (t0 + 1) f hS hok' hfail'
          rw [heq] at hrec
          simp only [captureLoop, h0, if_true, hrec, List.range'_succ,
            List.flatMap_cons]

theorem openStreams_fail (w : CollectWorld) (root : String) :
    ∀ k i n st, k < n →
      (∀ j, j < k →
        (w.openIn (i + j)).isSome = true ∧ (w.openOut (i + j)).isSome = true) →
      (w.openIn (i + k) = none ∨ w.openOut (i + k) = none) →
      (openStreams w root i n st).fst.ok = false ∧
      (openStreams w root i n st).snd.free_fd = st.free_fd ∧
      (openStreams w root i n st).snd.is_tracing = st.is_tracing ∧
      (∀ x, x ∈ st.openFds → x ∈ (openStreams w root i n st).snd.openFds) ∧
      (∀ j, j < k → ∀ a b, w.openIn (i + j) = some a → w.openOut (i + j) = some b →
        a ∈ (openStreams w root i n st).snd.openFds ∧
        b ∈ (openStreams w root i n st).snd.openFds) ∧
      (∀ a, w.openIn (i + k) = some a →
        a ∈ (openStreams w root i n st).snd.openFds) := by
  intro k
  induction k with
  | zero =>
      intro i n st hn _ hfail
      cases n with
      | zero => exact absurd hn (Nat.lt_irrefl 0)
      | succ m =>
          simp only [Nat.add_zero] at hfail
          cases hin : w.openIn i with
          | none =>
              have hres : openStreams w root i (m + 1) st =
                  (Status.internalError
                    ("Unable to open " ++
                      (root ++ "/per_cpu/" ++ ("cpu" ++ toString i) ++ "/trace_pipe_raw")),
                   st) := by
                simp [openStreams, hin]
              rw [hres]
              refine ⟨rfl, rfl, rfl, fun x hx => hx,
                fun j hj => absurd hj (Nat.not_lt_zero j), ?_⟩
              intro a ha
              simp only [Nat.add_zero] at ha
              rw [hin] at ha
              exact Option.noConfusion ha
          | some a0 =>
              have hout : w.openOut i = none := by
                cases hfail with
                | inl h => rw [hin] at h; exact Option.noConfusion h
                | inr h => exact h
              have hres : openStreams w root i (m + 1) st =
                  (Status.internalError ("Unable to create traces/" ++ ("cpu" ++ toString i)),
                   { st with openFds := a0 :: st.openFds }) := by
                simp [openStreams, hin, hout]
              rw [hres]
              refine ⟨rfl, rfl, rfl, ?_,
                fun j hj => absurd hj (Nat.not_lt_zero j), ?_⟩
              · intro x hx
                exact List.mem_cons_of_mem a0 hx
              · intro a ha
                simp only [Nat.add_zero] at ha
                rw [hin] at ha
                injection ha with haa
                subst haa
                exact List.mem_cons_self a0 st.openFds
  | succ l ih =>
      intro i n st hn hok hfail
      cases n with
      | zero => exact absurd hn (Nat.not_lt_zero _)
      | succ m =>
          obtain ⟨hin0, hout0⟩ := hok 0 (Nat.succ_pos l)
          simp only [Nat.add_zero] at hin0 hout0
          obtain ⟨a0, ha0⟩ := Option.isSome_iff_exists.mp hin0
          obtain ⟨b0, hb0⟩ := Option.isSome_iff_exists.mp hout0
          have hok' : ∀ j, j < l →
              (w.openIn (i + 1 + j)).isSome = true ∧
              (w.openOut (i + 1 + j)).isSome = true := by
            intro j hj
            have := hok (j + 1) (Nat.succ_lt_succ hj)
            simpa [Nat.add_comm, Nat.add_assoc, Nat.add_left_comm] using this
          have heq : i + 1 + l = i + (l + 1) := by omega
          have hfail' : w.openIn (i + 1 + l) = none ∨ w.openOut (i + 1 + l) = none := by
            rw [heq]; exact hfail
          have hl : l < m := Nat.lt_of_succ_lt_succ hn
          set st' : TracerState :=
            { st with openFds := b0 :: a0 :: st.openFds,
                      fds := st.fds ++ [(a0, b0)] } with hst'
          obtain ⟨hA, hB, hC, hD, hE, hF⟩ := ih (i + 1) m st' hl hok' hfail'
          have hstep : openStreams w root i (m + 1) st =
              openStreams w root (i + 1) m st' := by
            simp only [openStreams, ha0, hb0, hst']
          rw [hstep]
          refine ⟨hA, hB, hC, ?_, ?_, ?_⟩
          · intro x hx
            exact hD x (by simp [hst', hx])
          · intro j hj a b hja hjb
            cases j with
            | zero =>
                simp only [Nat.add_zero] at hja hjb
                rw [ha0] at hja
                rw [hb0] at hjb
                cases hja
                cases hjb
                constructor
                · exact hD a0 (by simp [hst'])
                · exact hD b0 (by simp [hst'])
            | succ j' =>
                have hj' : j' < l := Nat.lt_of_succ_lt_succ hj
                have heq' : i + (j' + 1) = i + 1 + j' := by omega
                rw [heq'] at hja hjb
                exact hE j' hj' a b hja hjb
          · intro a ha
            rw [← heq] at ha
            exact hF a ha

theorem closeFdsActions_count (l : List (Nat × Nat)) :
    (closeFdsActions l).count TAction.closeFree = 0 := by
  induction l with
  | nil => rfl
  | cons p rest ih => simp [closeFdsActions, List.count_cons, ih]

/-- C3 (confirmed): while tracing, a `CopyCPUBuffer` call whose non-blocking
read yields no data — `read` returning `0`, or `-1` with `errno == EAGAIN`,
or a tick on a stream with nothing further to offer — appends no bytes to the
output file and returns ok; and the drain returns a non-ok status exactly
when a read reports an error other than would-block before an end-of-data or
would-block result, so only such read results produce an error, and a second
drain tick with no new kernel data appends zero bytes and reports none. -/
theorem c3_empty_drain_ok (in_fd : Nat) (rest reads : List ReadResult) :
    copyCPUBuffer true in_fd (ReadResult.zero :: rest) = (Status.okStatus, []) ∧
    copyCPUBuffer true in_fd (ReadResult.wouldBlock :: rest) = (Status.okStatus, []) ∧
    copyCPUBuffer true in_fd [] = (Status.okStatus, []) ∧
    ((copyCPUBuffer true in_fd reads).fst.ok = false ↔
      readScriptFails reads = true) := by
  refine ⟨rfl, rfl, rfl, ?_⟩
  show (copyCPUBufferLoop in_fd reads).fst.ok = false ↔ readScriptFails reads = true
  induction reads with
  | nil => simp [copyCPUBufferLoop, readScriptFails]
  | cons r t ih =>
      cases r with
      | data bytes => simpa [copyCPUBufferLoop, readScriptFails] using ih
      | zero => simp [copyCPUBufferLoop, readScriptFails]
      | wouldBlock => simp [copyCPUBufferLoop, readScriptFails]
      | readErr => simp [copyCPUBufferLoop, readScriptFails]

/-- C6 (code bug): `WriteString` runs `std::ofstream out(path); out << data;
out.close();` and reports failure only when `out.bad()`.  A failed open sets
only `failbit`, never `badbit`, so when the control file cannot be opened for
writing the function returns `OkStatus` even though nothing was written —
contradicting both the claim and the function's own "Status if successful or
not" contract.  The short/failed-flush case (which does set `badbit`) is
correctly reported; the first conjunct evaluates the code at the failing
input, the second shows the flush-failure case for contrast. -/
theorem c6_writeString_misses_open_failure :
    writeString ⟨false, false, 0⟩ "/sys/kernel/debug/tracing/tracing_on" "0" =
      (Status.okStatus, none) ∧
    (writeString ⟨true, true, 0⟩
      "/sys/kernel/debug/tracing/tracing_on" "0").fst.ok = false := by
  exact ⟨rfl, rfl⟩

/-- C7 (counterexample): with stream pairs `fds_ = [(3,4),(5,6)]` (as a real
session would have: descriptors, not CPU indices) and cpu `1`'s read failing
with a non-`EAGAIN` error, the error surfaced by the drain pass is
"Unable to read cpu file 5" — it is tagged with the input file descriptor
`5` of the failing stream, not with the failing CPU's index `1` as the claim
states. -/
theorem c7_counterexample :
    (copyCPUBuffers true 2 [(3, 4), (5, 6)]
        (fun i => if i == 0 then [ReadResult.zero] else [ReadResult.readErr])).fst.message =
      "Unable to read cpu file " ++ toString 5 ∧
    ¬ ((copyCPUBuffers true 2 [(3, 4), (5, 6)]
        (fun i => if i == 0 then [ReadResult.zero] else [ReadResult.readErr])).fst.message =
      "Unable to read cpu file " ++ toString 1) := by
  decide

/-- C7 (amended, proved): whenever a per-CPU non-blocking read fails with an
error other than would-block during a drain pass (cpu `i` failing, all
earlier CPUs draining cleanly), the error surfaced to the caller is tagged
with the read-side file descriptor of the failing CPU's stream
(`fds_[i].first`), not with the CPU index. -/
theorem c7_error_names_fd (nprocs i : Nat) (fds : List (Nat × Nat))
    (reads : Nat → List ReadResult)
    (hi : i < nprocs)
    (hok : ∀ j, j < i →
      (copyCPUBuffer true (fds.getD j (0, 0)).fst (reads j)).fst.ok = true)
    (hfail : (copyCPUBuffer true (fds.getD i (0, 0)).fst (reads i)).fst.ok = false) :
    (copyCPUBuffers true nprocs fds reads).fst =
      Status.internalError
        ("Unable to read cpu file " ++ toString (fds.getD i (0, 0)).fst) := by
  have hok0 : ∀ j, j < i →
      (copyCPUBuffer true (fds.getD (0 + j) (0, 0)).fst (reads (0 + j))).fst.ok = true := by
    intro j hj
    simpa using hok j hj
  have hfail0 :
      (copyCPUBuffer true (fds.getD (0 + i) (0, 0)).fst (reads (0 + i))).fst.ok = false := by
    simpa using hfail
  have h := buffersLoop_fail fds reads i 0 nprocs hi hok0 hfail0
  have hmsg := copyCPUBufferLoop_fail_eq (fds.getD i (0, 0)).fst (reads i)
    (by simpa [copyCPUBuffer] using hfail)
  show (copyCPUBuffersLoop true fds reads 0 nprocs).fst = _
  rw [h]
  simpa [copyCPUBuffer] using hmsg

/-- Witness for `c7_error_names_fd` at the counterexample's concrete input:
cpu 1 of two fails, and the surfaced error names its read-side descriptor. -/
theorem c7_error_names_fd_witness :
    (copyCPUBuffers true 2 [(3, 4), (5, 6)]
        (fun i => if i == 0 then [ReadResult.zero] else [ReadResult.readErr])).fst =
      Status.internalError
        ("Unable to read cpu file " ++
          toString (([(3, 4), (5, 6)] : List (Nat × Nat)).getD 1 (0, 0)).fst) :=
  c7_error_names_fd 2 1 [(3, 4), (5, 6)]
    (fun i => if i == 0 then [ReadResult.zero] else [ReadResult.readErr])
    (by decide)
    (by decide)
    (by decide)

/-- C10 (confirmed): `CopyCPUBuffers` re-samples the online CPU count at call
time (the `nprocs` argument, `get_nprocs()` in the source) instead of using
the count stored when the streams were opened, and indexes `fds_[i]` for
every `i` below that fresh count without a bounds check; for every call made
while tracing, every `fds_` access stays within the `fds_` vector — over all
possible read outcomes — if and only if the call-time CPU count does not
exceed the number of stream pairs opened at capture start.  This is the
precondition for memory-safe indexing that mid-capture CPU hot-plug would
violate. -/
theorem c10_access_in_bounds_iff (nprocs : Nat) (fds : List (Nat × Nat)) :
    (∀ reads : Nat → List ReadResult,
      ∀ i ∈ (copyCPUBuffers true nprocs fds reads).2.1, i < fds.length) ↔
      nprocs ≤ fds.length := by
  constructor
  · intro h
    by_contra hgt
    have hlt : fds.length < nprocs := Nat.lt_of_not_le hgt
    have hall : ∀ j, j < nprocs →
        (copyCPUBuffer true
          ((fds.getD (0 + j) (0, 0)).fst) ((fun _ => [ReadResult.zero]) (0 + j))).fst.ok = true := by
      intro j _
      rfl
    have heq := buffersLoop_all_ok fds (fun _ => [ReadResult.zero]) nprocs 0 hall
    have hmem : fds.length ∈ (copyCPUBuffers true nprocs fds
        (fun _ => [ReadResult.zero])).2.1 := by
      show fds.length ∈ (copyCPUBuffersLoop true fds (fun _ => [ReadResult.zero]) 0 nprocs).2.1
      rw [heq]
      simp [List.mem_range']
      omega
    exact absurd (h (fun _ => [ReadResult.zero]) fds.length hmem)
      (Nat.lt_irrefl fds.length)
  · intro hle reads i hi
    have := buffersLoop_mem fds reads nprocs 0 i hi
    omega

/-- C5 (confirmed): if during capture-loop pass `T` the drain of cpu `i`
fails (all earlier passes and all CPUs before `i` in pass `T` having drained
cleanly), then (1) that pass accesses exactly the CPUs `0..i` — no CPU with
index greater than `i` is drained; (2) the capture loop's recorded status is
the failure, so `CollectTrace` sees a non-ok `failedCopyStatus`; (3) the loop
performs no drain pass after tick `T` — every append-log entry is from a tick
at most `T`; and (4) every byte chunk appended during the earlier ticks is
preserved in the final append log, not discarded. -/
theorem c5_fail_fast (fds : List (Nat × Nat))
    (readsAt : Nat → Nat → List ReadResult) (nprocsAt : Nat → Nat)
    (fuel T i : Nat)
    (hT : T < fuel)
    (hpass : ∀ u, u < T →
      (copyCPUBuffers true (nprocsAt u) fds (readsAt u)).fst.ok = true)
    (hi : i < nprocsAt T)
    (hcpu : ∀ j, j < i →
      (copyCPUBuffer true (fds.getD j (0, 0)).fst (readsAt T j)).fst.ok = true)
    (hfail :
      (copyCPUBuffer true (fds.getD i (0, 0)).fst (readsAt T i)).fst.ok = false) :
    (copyCPUBuffers true (nprocsAt T) fds (readsAt T)).2.1 = List.range (i + 1) ∧
    (captureLoop fds readsAt nprocsAt 0 fuel).fst.ok = false ∧
    (∀ e ∈ (captureLoop fds readsAt nprocsAt 0 fuel).snd, e.fst ≤ T) ∧
    (∀ u, u < T → ∀ c bs,
      (c, bs) ∈ (copyCPUBuffers true (nprocsAt u) fds (readsAt u)).2.2 →
      (u, c, bs) ∈ (captureLoop fds readsAt nprocsAt 0 fuel).snd) := by
  have hcpu0 : ∀ j, j < i →
      (copyCPUBuffer true (fds.getD (0 + j) (0, 0)).fst (readsAt T (0 + j))).fst.ok = true := by
    intro j hj
    simpa using hcpu j hj
  have hfail0 :
      (copyCPUBuffer true (fds.getD (0 + i) (0, 0)).fst (readsAt T (0 + i))).fst.ok = false := by
    simpa using hfail
  have hpassT := buffersLoop_fail fds (readsAt T) i 0 (nprocsAt T) hi hcpu0 hfail0
  have hpassT' : copyCPUBuffers true (nprocsAt T) fds (readsAt T) =
      ((copyCPUBuffer true (fds.getD i (0, 0)).fst (readsAt T i)).fst,
       List.range' 0 (i + 1),
       (List.range' 0 (i + 1)).map fun j =>
         (j, (copyCPUBuffer true (fds.getD j (0, 0)).fst (readsAt T j)).snd)) := by
    show copyCPUBuffersLoop true fds (readsAt T) 0 (nprocsAt T) = _
    simpa using hpassT
  have hpassFail : (copyCPUBuffers true (nprocsAt T) fds (readsAt T)).fst.ok = false := by
    rw [hpassT']
    exact hfail
  have hpass0 : ∀ u, u < T →
      (copyCPUBuffers true (nprocsAt (0 + u)) fds (readsAt (0 + u))).fst.ok = true := by
    intro u hu
    simpa using hpass u hu
  have hpassFail0 :
      (copyCPUBuffers true (nprocsAt (0 + T)) fds (readsAt (0 + T))).fst.ok = false := by
    simpa using hpassFail
  have hloop := captureLoop_fail fds readsAt nprocsAt T 0 fuel hT hpass0 hpassFail0
  simp only [Nat.zero_add] at hloop
  refine ⟨?_, ?_, ?_, ?_⟩
  · rw [hpassT']
    exact (List.range_eq_range' (i + 1)).symm ▸ rfl
  · rw [hloop]
    exact hpassFail
  · intro e he
    rw [hloop] at he
    simp only [List.mem_flatMap, List.mem_map] at he
    obtain ⟨t, ht, p, _, hpe⟩ := he
    have hrange := List.mem_range'_1.mp ht
    have hefst : e.fst = t := by rw [← hpe]
    omega
  · intro u hu c bs hm
    rw [hloop]
    simp only [List.mem_flatMap]
    refine ⟨u, ?_, ?_⟩
    · exact List.mem_range'_1.mpr ⟨Nat.zero_le u, by omega⟩
    · simp only [List.mem_map]
      exact ⟨(c, bs), hm, rfl⟩

/-- Witness for `c5_fail_fast`: two CPUs, pass 0 drains cleanly, pass 1 fails
on cpu 1; instantiates the theorem and discharges every hypothesis at this
concrete input. -/
theorem c5_fail_fast_witness :
    ((copyCPUBuffers true 2 [(3, 4), (5, 6)]
        (fun i => if i == 0 then [ReadResult.zero] else [ReadResult.readErr])).2.1 =
      List.range 2) ∧
    ((captureLoop [(3, 4), (5, 6)]
        (fun t i => if t == 0 then [ReadResult.zero]
          else if i == 0 then [ReadResult.zero] else [ReadResult.readErr])
        (fun _ => 2) 0 3).fst.ok = false) ∧
    (∀ e ∈ (captureLoop [(3, 4), (5, 6)]
        (fun t i => if t == 0 then [ReadResult.zero]
          else if i == 0 then [ReadResult.zero] else [ReadResult.readErr])
        (fun _ => 2) 0 3).snd, e.fst ≤ 1) ∧
    (∀ u, u < 1 → ∀ c bs,
      (c, bs) ∈ (copyCPUBuffers true 2 [(3, 4), (5, 6)]
        (fun _ => [ReadResult.zero])).2.2 →
      (u, c, bs) ∈ (captureLoop [(3, 4), (5, 6)]
        (fun t i => if t == 0 then [ReadResult.zero]
          else if i == 0 then [ReadResult.zero] else [ReadResult.readErr])
        (fun _ => 2) 0 3).snd) := by
  have h := c5_fail_fast [(3, 4), (5, 6)]
    (fun t i => if t == 0 then [ReadResult.zero]
      else if i == 0 then [ReadResult.zero] else [ReadResult.readErr])
    (fun _ => 2) 3 1 1
    (by decide)
    (by decide)
    (by decide)
    (by decide)
    (by decide)
  refine ⟨h.1, h.2.1, h.2.2.1, ?_⟩
  intro u hu c bs hm
  have hu0 : u = 0 := by omega
  subst hu0
  exact h.2.2.2 0 (by decide) c bs hm

/-- C8 (confirmed): `StopTrace` called while the session is not tracing
returns the precondition failure "Not currently in a trace" (a non-ok
status), performs no kernel writes and no closes (its action log is empty),
and leaves the whole session state — `is_tracing_`, `fds_`, `free_fd_` —
unchanged. -/
theorem c8_stop_not_tracing (w : CollectWorld) (root : String)
    (st : TracerState) (final_copy : Bool) (h : st.is_tracing = false) :
    stopTrace w root st final_copy =
      (Status.internalError "Not currently in a trace", st, []) ∧
    (Status.internalError "Not currently in a trace").ok = false := by
  constructor
  · simp [stopTrace, h]
  · rfl

/-- Witness for `c8_stop_not_tracing` at a concrete idle session state. -/
theorem c8_stop_not_tracing_witness :
    stopTrace
      { createDirsOk := true, nprocs := 1,
        openIn := fun _ => some 4, openOut := fun _ => some 5,
        writeFails := fun _ _ => false,
        loopNprocs := fun _ => 1, loopReads := fun _ _ => [],
        ticks := 0, stopNprocs := 1, stopReads := fun _ => [] }
      "/sys/kernel/debug/tracing" ⟨false, [(4, 5)], 3, [3, 4, 5]⟩ true =
      (Status.internalError "Not currently in a trace",
       ⟨false, [(4, 5)], 3, [3, 4, 5]⟩, []) ∧
    (Status.internalError "Not currently in a trace").ok = false :=
  c8_stop_not_tracing
    { createDirsOk := true, nprocs := 1,
      openIn := fun _ => some 4, openOut := fun _ => some 5,
      writeFails := fun _ _ => false,
      loopNprocs := fun _ => 1, loopReads := fun _ _ => [],
      ticks := 0, stopNprocs := 1, stopReads := fun _ => [] }
    "/sys/kernel/debug/tracing" ⟨false, [(4, 5)], 3, [3, 4, 5]⟩ true
    (by decide)

/-- C9 (confirmed): every execution path through `StopTrace` that begins with
`is_tracing_` true — failed `tracing_on=0` write, failed final copy, or
success — performs the `close(free_fd_)` call exactly once and clears
`is_tracing_` before returning; and any later `StopTrace` call on the
resulting state, the destructor's defensive `StopTrace(false)` included,
returns before performing a second close (zero `closeFree` actions). -/
theorem c9_guard_released_once (w : CollectWorld) (root : String)
    (st : TracerState) (final_copy : Bool) (h : st.is_tracing = true) :
    (stopTrace w root st final_copy).2.2.count TAction.closeFree = 1 ∧
    (stopTrace w root st final_copy).2.1.is_tracing = false ∧
    (∀ (w' : CollectWorld) (root' : String) (fc' : Bool),
      (stopTrace w' root' (stopTrace w root st final_copy).2.1 fc').2.2.count
        TAction.closeFree = 0 ∧
      (stopTrace w' root' (stopTrace w root st final_copy).2.1 fc').fst.ok = false) := by
  have hmain :
      (stopTrace w root st final_copy).2.2.count TAction.closeFree = 1 ∧
      (stopTrace w root st final_copy).2.1.is_tracing = false := by
    simp only [stopTrace, h, if_true]
    by_cases h1 : (collectWrite w (root ++ "/tracing_on") "0").ok = true
    · simp only [h1, if_true]
      by_cases h2 : (if final_copy then
          (copyCPUBuffers true w.stopNprocs st.fds w.stopReads).fst
        else Status.okStatus).ok = true
      · simp [h2, List.count_cons, List.count_append, closeFdsActions_count]
      · simp only [Bool.not_eq_true] at h2
        rw [h2]
        simp [List.count_cons]
    · simp only [Bool.not_eq_true] at h1
      rw [h1]
      simp [List.count_cons]
  refine ⟨hmain.1, hmain.2, ?_⟩
  intro w' root' fc'
  obtain ⟨_, hit⟩ := hmain
  generalize hg : (stopTrace w root st final_copy).2.1 = st2 at hit ⊢
  constructor
  · simp [stopTrace, hit]
  · simp [stopTrace, hit]

/-- Witness for `c9_guard_released_once` at a concrete tracing session state
(successful stop path, followed by the destructor's defensive call). -/
theorem c9_guard_released_once_witness :
    (stopTrace
      { createDirsOk := true, nprocs := 1,
        openIn := fun _ => some 4, openOut := fun _ => some 5,
        writeFails := fun _ _ => false,
        loopNprocs := fun _ => 1, loopReads := fun _ _ => [],
        ticks := 0, stopNprocs := 1, stopReads := fun _ => [] }
      "/sys/kernel/debug/tracing" ⟨true, [(4, 5)], 3, [3, 4, 5]⟩ false).2.2.count
        TAction.closeFree = 1 ∧
    (stopTrace
      { createDirsOk := true, nprocs := 1,
        openIn := fun _ => some 4, openOut := fun _ => some 5,
        writeFails := fun _ _ => false,
        loopNprocs := fun _ => 1, loopReads := fun _ _ => [],
        ticks := 0, stopNprocs := 1, stopReads := fun _ => [] }
      "/sys/kernel/debug/tracing" ⟨true, [(4, 5)], 3, [3, 4, 5]⟩ false).2.1.is_tracing
        = false ∧
    (∀ (w' : CollectWorld) (root' : String) (fc' : Bool),
      (stopTrace w' root'
        (stopTrace
          { createDirsOk := true, nprocs := 1,
            openIn := fun _ => some 4, openOut := fun _ => some 5,
            writeFails := fun _ _ => false,
            loopNprocs := fun _ => 1, loopReads := fun _ _ => [],
            ticks := 0, stopNprocs := 1, stopReads := fun _ => [] }
          "/sys/kernel/debug/tracing" ⟨true, [(4, 5)], 3, [3, 4, 5]⟩ false).2.1
        fc').2.2.count TAction.closeFree = 0 ∧
      (stopTrace w' root'
        (stopTrace
          { createDirsOk := true, nprocs := 1,
            openIn := fun _ => some 4, openOut := fun _ => some 5,
            writeFails := fun _ _ => false,
            loopNprocs := fun _ => 1, loopReads := fun _ _ => [],
            ticks := 0, stopNprocs := 1, stopReads := fun _ => [] }
          "/sys/kernel/debug/tracing" ⟨true, [(4, 5)], 3, [3, 4, 5]⟩ false).2.1
        fc').fst.ok = false) :=
  c9_guard_released_once
    { createDirsOk := true, nprocs := 1,
      openIn := fun _ => some 4, openOut := fun _ => some 5,
      writeFails := fun _ _ => false,
      loopNprocs := fun _ => 1, loopReads := fun _ _ => [],
      ticks := 0, stopNprocs := 1, stopReads := fun _ => [] }
    "/sys/kernel/debug/tracing" ⟨true, [(4, 5)], 3, [3, 4, 5]⟩ false
    (by decide)

/-- C1 (counterexample): two online CPUs; cpu0's stream pair opens as
`(4, 5)`, cpu1's read side fails to open; the session starts from the
post-configuration state (guard `free_fd_ = 3` open, no stream pairs).
`CollectTrace` fails, yet — even after the destructor's defensive
`StopTrace(false)`, which returns immediately because `is_tracing_` is still
false — cpu0's descriptors `4` and `5` and the guard descriptor `3`
all remain open, contradicting the claim that every earlier pair is closed
and the guard released. -/
theorem c1_counterexample :
    (collectTrace
      { createDirsOk := true, nprocs := 2,
        openIn := fun i => if i == 0 then some 4 else none,
        openOut := fun i => if i == 0 then some 5 else none,
        writeFails := fun _ _ => false,
        loopNprocs := fun _ => 2, loopReads := fun _ _ => [],
        ticks := 0, stopNprocs := 2, stopReads := fun _ => [] }
      "/sys/kernel/debug/tracing" ⟨false, [], 3, [3]⟩).fst.ok = false ∧
    (stopTrace
      { createDirsOk := true, nprocs := 2,
        openIn := fun i => if i == 0 then some 4 else none,
        openOut := fun i => if i == 0 then some 5 else none,
        writeFails := fun _ _ => false,
        loopNprocs := fun _ => 2, loopReads := fun _ _ => [],
        ticks := 0, stopNprocs := 2, stopReads := fun _ => [] }
      "/sys/kernel/debug/tracing"
      (collectTrace
        { createDirsOk := true, nprocs := 2,
          openIn := fun i => if i == 0 then some 4 else none,
          openOut := fun i => if i == 0 then some 5 else none,
          writeFails := fun _ _ => false,
          loopNprocs := fun _ => 2, loopReads := fun _ _ => [],
          ticks := 0, stopNprocs := 2, stopReads := fun _ => [] }
        "/sys/kernel/debug/tracing" ⟨false, [], 3, [3]⟩).snd
      false).2.1.openFds = [5, 4, 3] := by
  decide

/-- C1 (amended, proved): if opening either side of cpu `k`'s stream pair —
the `per_cpu/cpu<k>/trace_pipe_raw` read side or the `traces/cpu<k>` output
file — fails during the `Configuring → Tracing` transition (the directory
existing and every earlier pair having opened), `CollectTrace` returns a
non-ok status with `is_tracing_` still false, but both descriptors of every
stream pair opened earlier in that same transition remain open, the
buffer-clear guard descriptor `free_fd_` remains open, the failing CPU's
read-side descriptor — when it was the output-file open that failed — is
leaked open as well, and the destructor's defensive `StopTrace(false)`
returns without closing anything, so the descriptors stay open until a later
`ClearCPUFDs` (a subsequent `CollectTrace`) or process exit. -/
theorem c1_failed_open_leaks_streams (w : CollectWorld) (root : String)
    (st : TracerState) (k : Nat)
    (h0 : st.is_tracing = false)
    (hfds : st.fds = [])
    (hfree : st.free_fd ∈ st.openFds)
    (h1 : w.createDirsOk = true)
    (hk : k < w.nprocs)
    (hok : ∀ j, j < k → (w.openIn j).isSome = true ∧ (w.openOut j).isSome = true)
    (hfail : w.openIn k = none ∨ w.openOut k = none) :
    (collectTrace w root st).fst.ok = false ∧
    (collectTrace w root st).snd.is_tracing = false ∧
    (collectTrace w root st).snd.free_fd ∈ (collectTrace w root st).snd.openFds ∧
    (∀ j, j < k → ∀ a b, w.openIn j = some a → w.openOut j = some b →
      a ∈ (collectTrace w root st).snd.openFds ∧
      b ∈ (collectTrace w root st).snd.openFds) ∧
    (∀ a, w.openIn k = some a → a ∈ (collectTrace w root st).snd.openFds) ∧
    (∀ (w' : CollectWorld) (root' : String),
      stopTrace w' root' (collectTrace w root st).snd false =
        (Status.internalError "Not currently in a trace",
         (collectTrace w root st).snd, [])) := by
  have hclear : (clearCPUFDs st).fst =
      { is_tracing := false, fds := [], free_fd := st.free_fd,
        openFds := st.openFds } := by
    simp [clearCPUFDs, hfds, eraseFds, h0]
  have hok0 : ∀ j, j < k →
      (w.openIn (0 + j)).isSome = true ∧ (w.openOut (0 + j)).isSome = true := by
    intro j hj
    simpa using hok j hj
  have hfail0 : w.openIn (0 + k) = none ∨ w.openOut (0 + k) = none := by
    simpa using hfail
  have hopen := openStreams_fail w root k 0 w.nprocs
    { is_tracing := false, fds := [], free_fd := st.free_fd,
      openFds := st.openFds } hk hok0 hfail0
  obtain ⟨hA, hB, hC, hD, hE, hF⟩ := hopen
  have hres : collectTrace w root st =
      ((openStreams w root 0 w.nprocs
          { is_tracing := false, fds := [], free_fd := st.free_fd,
            openFds := st.openFds }).fst,
       (openStreams w root 0 w.nprocs
          { is_tracing := false, fds := [], free_fd := st.free_fd,
            openFds := st.openFds }).snd) := by
    have hnotok : ¬ ((openStreams w root 0 w.nprocs
        { is_tracing := false, fds := [], free_fd := st.free_fd,
          openFds := st.openFds }).fst.ok = true) := by
      simp [hA]
    simp only [collectTrace, h0, h1, hclear]
    simp [hnotok]
  rw [hres]
  have hit : (openStreams w root 0 w.nprocs
      { is_tracing := false, fds := [], free_fd := st.free_fd,
        openFds := st.openFds }).snd.is_tracing = false := by
    rw [hC]
  refine ⟨hA, hit, ?_, ?_, ?_, ?_⟩
  · rw [hB]
    exact hD st.free_fd hfree
  · intro j hj a b hja hjb
    have hja0 : w.openIn (0 + j) = some a := by simpa using hja
    have hjb0 : w.openOut (0 + j) = some b := by simpa using hjb
    exact hE j hj a b hja0 hjb0
  · intro a ha
    have ha0 : w.openIn (0 + k) = some a := by simpa using ha
    exact hF a ha0
  · intro w' root'
    simp [stopTrace, hit]

/-- Witness for `c1_failed_open_leaks_streams` at a concrete input exercising
the output-file open failure: two CPUs, cpu0's pair opening as `(4, 5)`,
cpu1's read side opening as `6` and its `traces/cpu1` output file failing to
open; cpu0's descriptors, the orphaned read-side descriptor `6`, and the
guard all remain open. -/
theorem c1_failed_open_leaks_streams_witness :
    ((collectTrace
      { createDirsOk := true, nprocs := 2,
        openIn := fun i => if i == 0 then some 4 else some 6,
        openOut := fun i => if i == 0 then some 5 else none,
        writeFails := fun _ _ => false,
        loopNprocs := fun _ => 2, loopReads := fun _ _ => [],
        ticks := 0, stopNprocs := 2, stopReads := fun _ => [] }
      "/sys/kernel/debug/tracing" ⟨false, [], 3, [3]⟩).fst.ok = false) ∧
    ((collectTrace
      { createDirsOk := true, nprocs := 2,
        openIn := fun i => if i == 0 then some 4 else some 6,
        openOut := fun i => if i == 0 then some 5 else none,
        writeFails := fun _ _ => false,
        loopNprocs := fun _ => 2, loopReads := fun _ _ => [],
        ticks := 0, stopNprocs := 2, stopReads := fun _ => [] }
      "/sys/kernel/debug/tracing" ⟨false, [], 3, [3]⟩).snd.is_tracing = false) ∧
    ((collectTrace
      { createDirsOk := true, nprocs := 2,
        openIn := fun i => if i == 0 then some 4 else some 6,
        openOut := fun i => if i == 0 then some 5 else none,
        writeFails := fun _ _ => false,
        loopNprocs := fun _ => 2, loopReads := fun _ _ => [],
        ticks := 0, stopNprocs := 2, stopReads := fun _ => [] }
      "/sys/kernel/debug/tracing" ⟨false, [], 3, [3]⟩).snd.free_fd ∈
      (collectTrace
      { createDirsOk := true, nprocs := 2,
        openIn := fun i => if i == 0 then some 4 else some 6,
        openOut := fun i => if i == 0 then some 5 else none,
        writeFails := fun _ _ => false,
        loopNprocs := fun _ => 2, loopReads := fun _ _ => [],
        ticks := 0, stopNprocs := 2, stopReads := fun _ => [] }
      "/sys/kernel/debug/tracing" ⟨false, [], 3, [3]⟩).snd.openFds) ∧
    (∀ j, j < 1 → ∀ a b,
      (if j == 0 then some 4 else some 6) = some a →
      (if j == 0 then some 5 else none) = some b →
      a ∈ (collectTrace
        { createDirsOk := true, nprocs := 2,
          openIn := fun i => if i == 0 then some 4 else some 6,
          openOut := fun i => if i == 0 then some 5 else none,
          writeFails := fun _ _ => false,
          loopNprocs := fun _ => 2, loopReads := fun _ _ => [],
          ticks := 0, stopNprocs := 2, stopReads := fun _ => [] }
        "/sys/kernel/debug/tracing" ⟨false, [], 3, [3]⟩).snd.openFds ∧
      b ∈ (collectTrace
        { createDirsOk := true, nprocs := 2,
          openIn := fun i => if i == 0 then some 4 else some 6,
          openOut := fun i => if i == 0 then some 5 else none,
          writeFails := fun _ _ => false,
          loopNprocs := fun _ => 2, loopReads := fun _ _ => [],
          ticks := 0, stopNprocs := 2, stopReads := fun _ => [] }
        "/sys/kernel/debug/tracing" ⟨false, [], 3, [3]⟩).snd.openFds) ∧
    (∀ a, (if (1 : Nat) == 0 then some 4 else some 6) = some a →
      a ∈ (collectTrace
        { createDirsOk := true, nprocs := 2,
          openIn := fun i => if i == 0 then some 4 else some 6,
          openOut := fun i => if i == 0 then some 5 else none,
          writeFails := fun _ _ => false,
          loopNprocs := fun _ => 2, loopReads := fun _ _ => [],
          ticks := 0, stopNprocs := 2, stopReads := fun _ => [] }
        "/sys/kernel/debug/tracing" ⟨false, [], 3, [3]⟩).snd.openFds) ∧
    (∀ (w' : CollectWorld) (root' : String),
      stopTrace w' root' (collectTrace
        { createDirsOk := true, nprocs := 2,
          openIn := fun i => if i == 0 then some 4 else some 6,
          openOut := fun i => if i == 0 then some 5 else none,
          writeFails := fun _ _ => false,
          loopNprocs := fun _ => 2, loopReads := fun _ _ => [],
          ticks := 0, stopNprocs := 2, stopReads := fun _ => [] }
        "/sys/kernel/debug/tracing" ⟨false, [], 3, [3]⟩).snd false =
        (Status.internalError "Not currently in a trace",
         (collectTrace
          { createDirsOk := true, nprocs := 2,
            openIn := fun i => if i == 0 then some 4 else some 6,
            openOut := fun i => if i == 0 then some 5 else none,
            writeFails := fun _ _ => false,
            loopNprocs := fun _ => 2, loopReads := fun _ _ => [],
            ticks := 0, stopNprocs := 2, stopReads := fun _ => [] }
          "/sys/kernel/debug/tracing" ⟨false, [], 3, [3]⟩).snd, [])) :=
  c1_failed_open_leaks_streams
    { createDirsOk := true, nprocs := 2,
      openIn := fun i => if i == 0 then some 4 else some 6,
      openOut := fun i => if i == 0 then some 5 else none,
      writeFails := fun _ _ => false,
      loopNprocs := fun _ => 2, loopReads := fun _ _ => [],
      ticks := 0, stopNprocs := 2, stopReads := fun _ => [] }
    "/sys/kernel/debug/tracing" ⟨false, [], 3, [3]⟩ 1
    (by decide) (by decide) (by decide) (by decide) (by decide)
    (by decide) (by decide)


/-- C2 (confirmed): for every capture run in which a drain pass inside the
capture loop fails and the subsequent `StopTrace(final_copy=true)` also
returns a failure, the status `CollectTrace` returns is non-ok and its
message is exactly the drain-failure message, then `"\n\n"`, then the
stop-failure message — each of the two messages occurs inside it, neither is
dropped. -/
theorem c2_both_failures_reported (w : CollectWorld) (root : String)
    (st : TracerState)
    (h0 : st.is_tracing = false)
    (h1 : w.createDirsOk = true)
    (h2 : (openStreams w root 0 w.nprocs (clearCPUFDs st).fst).fst.ok = true)
    (h3 : w.writeFails (root ++ "/tracing_on") "1" = false)
    (h4 : (captureLoop (tracingState w root st).fds w.loopReads w.loopNprocs
        0 w.ticks).fst.ok = false)
    (h5 : (stopTrace w root (tracingState w root st) true).fst.ok = false) :
    (collectTrace w root st).fst.ok = false ∧
    (collectTrace w root st).fst.message =
      (captureLoop (tracingState w root st).fds w.loopReads w.loopNprocs
        0 w.ticks).fst.message ++ "\n\n" ++
      (stopTrace w root (tracingState w root st) true).fst.message ∧
    (∃ pre post, (collectTrace w root st).fst.message =
      pre ++ (captureLoop (tracingState w root st).fds w.loopReads w.loopNprocs
        0 w.ticks).fst.message ++ post) ∧
    (∃ pre post, (collectTrace w root st).fst.message =
      pre ++ (stopTrace w root (tracingState w root st) true).fst.message ++ post) := by
  have hwrite : (collectWrite w (root ++ "/tracing_on") "1").ok = true := by
    simp [collectWrite, h3]
  have hres : collectTrace w root st =
      (Status.internalError
        ((captureLoop (tracingState w root st).fds w.loopReads w.loopNprocs
            0 w.ticks).fst.message ++ "\n\n" ++
         (stopTrace w root (tracingState w root st) true).fst.message),
       (stopTrace w root (tracingState w root st) true).2.1) := by
    have hnotlp : ¬ ((captureLoop (tracingState w root st).fds w.loopReads
        w.loopNprocs 0 w.ticks).fst.ok = true) := by
      simp [h4]
    simp only [collectTrace, h0, h1, Bool.not_true, if_true, Bool.false_eq_true,
      if_false, h2, hwrite]
    simp only [tracingState] at hnotlp ⊢
    simp [hnotlp]
  rw [hres]
  refine ⟨rfl, rfl, ?_, ?_⟩
  · refine ⟨"", "\n\n" ++ (stopTrace w root (tracingState w root st) true).fst.message, ?_⟩
    rw [String.empty_append, String.append_assoc]
    exact rfl
  · refine ⟨(captureLoop (tracingState w root st).fds w.loopReads w.loopNprocs
        0 w.ticks).fst.message ++ "\n\n", "", ?_⟩
    rw [String.append_empty]
    exact rfl

/-- Witness for `c2_both_failures_reported`: one CPU; the single capture-loop
pass fails with a read error, and the stop's `tracing_on=0` write fails too;
both messages appear in the result. -/
theorem c2_both_failures_reported_witness :
    ((collectTrace
      { createDirsOk := true, nprocs := 1,
        openIn := fun _ => some 4, openOut := fun _ => some 5,
        writeFails := fun _ d => d == "0",
        loopNprocs := fun _ => 1,
        loopReads := fun _ _ => [ReadResult.readErr],
        ticks := 1, stopNprocs := 1, stopReads := fun _ => [] }
      "r" ⟨false, [], 3, [3]⟩).fst.ok = false) ∧
    ((collectTrace
      { createDirsOk := true, nprocs := 1,
        openIn := fun _ => some 4, openOut := fun _ => some 5,
        writeFails := fun _ d => d == "0",
        loopNprocs := fun _ => 1,
        loopReads := fun _ _ => [ReadResult.readErr],
        ticks := 1, stopNprocs := 1, stopReads := fun _ => [] }
      "r" ⟨false, [], 3, [3]⟩).fst.message =
      (captureLoop (tracingState
        { createDirsOk := true, nprocs := 1,
          openIn := fun _ => some 4, openOut := fun _ => some 5,
          writeFails := fun _ d => d == "0",
          loopNprocs := fun _ => 1,
          loopReads := fun _ _ => [ReadResult.readErr],
          ticks := 1, stopNprocs := 1, stopReads := fun _ => [] }
        "r" ⟨false, [], 3, [3]⟩).fds
        (fun _ _ => [ReadResult.readErr]) (fun _ => 1) 0 1).fst.message ++ "\n\n" ++
      (stopTrace
        { createDirsOk := true, nprocs := 1,
          openIn := fun _ => some 4, openOut := fun _ => some 5,
          writeFails := fun _ d => d == "0",
          loopNprocs := fun _ => 1,
          loopReads := fun _ _ => [ReadResult.readErr],
          ticks := 1, stopNprocs := 1, stopReads := fun _ => [] }
        "r"
        (tracingState
          { createDirsOk := true, nprocs := 1,
            openIn := fun _ => some 4, openOut := fun _ => some 5,
            writeFails := fun _ d => d == "0",
            loopNprocs := fun _ => 1,
            loopReads := fun _ _ => [ReadResult.readErr],
            ticks := 1, stopNprocs := 1, stopReads := fun _ => [] }
          "r" ⟨false, [], 3, [3]⟩) true).fst.message) ∧
    (∃ pre post, (collectTrace
      { createDirsOk := true, nprocs := 1,
        openIn := fun _ => some 4, openOut := fun _ => some 5,
        writeFails := fun _ d => d == "0",
        loopNprocs := fun _ => 1,
        loopReads := fun _ _ => [ReadResult.readErr],
        ticks := 1, stopNprocs := 1, stopReads := fun _ => [] }
      "r" ⟨false, [], 3, [3]⟩).fst.message =
      pre ++ (captureLoop (tracingState
        { createDirsOk := true, nprocs := 1,
          openIn := fun _ => some 4, openOut := fun _ => some 5,
          writeFails := fun _ d => d == "0",
          loopNprocs := fun _ => 1,
          loopReads := fun _ _ => [ReadResult.readErr],
          ticks := 1, stopNprocs := 1, stopReads := fun _ => [] }
        "r" ⟨false, [], 3, [3]⟩).fds
        (fun _ _ => [ReadResult.readErr]) (fun _ => 1) 0 1).fst.message ++ post) ∧
    (∃ pre post, (collectTrace
      { createDirsOk := true, nprocs := 1,
        openIn := fun _ => some 4, openOut := fun _ => some 5,
        writeFails := fun _ d => d == "0",
        loopNprocs := fun _ => 1,
        loopReads := fun _ _ => [ReadResult.readErr],
        ticks := 1, stopNprocs := 1, stopReads := fun _ => [] }
      "r" ⟨false, [], 3, [3]⟩).fst.message =
      pre ++ (stopTrace
        { createDirsOk := true, nprocs := 1,
          openIn := fun _ => some 4, openOut := fun _ => some 5,
          writeFails := fun _ d => d == "0",
          loopNprocs := fun _ => 1,
          loopReads := fun _ _ => [ReadResult.readErr],
          ticks := 1, stopNprocs := 1, stopReads := fun _ => [] }
        "r"
        (tracingState
          { createDirsOk := true, nprocs := 1,
            openIn := fun _ => some 4, openOut := fun _ => some 5,
            writeFails := fun _ d => d == "0",
            loopNprocs := fun _ => 1,
            loopReads := fun _ _ => [ReadResult.readErr],
            ticks := 1, stopNprocs := 1, stopReads := fun _ => [] }
          "r" ⟨false, [], 3, [3]⟩) true).fst.message ++ post) :=
  c2_both_failures_reported
    { createDirsOk := true, nprocs := 1,
      openIn := fun _ => some 4, openOut := fun _ => some 5,
      writeFails := fun _ d => d == "0",
      loopNprocs := fun _ => 1,
      loopReads := fun _ _ => [ReadResult.readErr],
      ticks := 1, stopNprocs := 1, stopReads := fun _ => [] }
    "r" ⟨false, [], 3, [3]⟩
    (by decide) (by decide) (by decide) (by decide) (by decide) (by decide)

theorem enableEventsLoop_runSteps (w : ConfigWorld) (p : String)
    (events : List String) :
    (enableEventsLoop w p events).fst =
      (runSteps (events.map fun e =>
        (some (CAction.writeEvent e),
         if w.eventWriteShort e then
           Status.internalError ("Failed to write " ++ e ++ " to " ++ p)
         else Status.okStatus))).fst ∧
    (enableEventsLoop w p events).snd.filter isControlAction =
      (runSteps (events.map fun e =>
        (some (CAction.writeEvent e),
         if w.eventWriteShort e then
           Status.internalError ("Failed to write " ++ e ++ " to " ++ p)
         else Status.okStatus))).snd := by
  induction events with
  | nil => exact ⟨rfl, rfl⟩
  | cons e rest ih =>
      by_cases hs : w.eventWriteShort e = true
      · simp [enableEventsLoop, runSteps, hs, isControlAction]
      · simp only [Bool.not_eq_true] at hs
        simp [enableEventsLoop, runSteps, hs, isControlAction, ih.1, ih.2]

/-- C4 (confirmed): on a fresh session (`is_tracing_ = false`),
`ConfigureFTrace` refines the spec's configuration transition: it attempts
the kernel-control actions in exactly the order (a) `tracing_on=0`, (b) open
`free_buffer` (acquiring the clear guard), (c) `current_tracer=nop`,
(d) `trace_options=disable_on_free`, (e) `buffer_size_kb=<configured size>`,
(f) each configured event identifier, in the configured order, to
`set_event`; the first failing sub-step aborts configuration and its failure
is the status returned, no earlier successful write is rolled back (the
control-action log is exactly the prefix of attempts, with no undo actions,
and the guard stays open once opened), and the guard is left closed iff it
had not yet been opened.  Stated as equality with `specConfigure`, the
model written from the spec's words, comparing status, the control-action
log, and the final guard state. -/
theorem c4_configure_order (w : ConfigWorld) (root : String)
    (buffer_size : Nat) (events : List String) :
    ((configureFTrace w false root buffer_size events).fst,
     (configureFTrace w false root buffer_size events).2.1.filter isControlAction,
     (configureFTrace w false root buffer_size events).2.2) =
      specConfigure w root buffer_size events := by
  by_cases h1 : w.writeFails (root ++ "/tracing_on") "0" = true
  · simp [configureFTrace, specConfigure, configWrite, runSteps, h1,
      isControlAction, Status.ok]
  · simp only [Bool.not_eq_true] at h1
    cases hf : w.freeOpen with
    | none =>
        simp [configureFTrace, specConfigure, configWrite, runSteps, h1, hf,
          isControlAction, Status.ok]
    | some ffd =>
        by_cases h3 : w.writeFails (root ++ "/current_tracer") "nop" = true
        · simp [configureFTrace, specConfigure, configWrite, runSteps, h1, hf, h3,
            isControlAction, Status.ok]
        · simp only [Bool.not_eq_true] at h3
          by_cases h4 : w.writeFails (root ++ "/trace_options") "disable_on_free" = true
          · simp [configureFTrace, specConfigure, configWrite, runSteps, h1, hf,
              h3, h4, isControlAction, Status.ok]
          · simp only [Bool.not_eq_true] at h4
            by_cases h5 : w.writeFails (root ++ "/buffer_size_kb")
                (toString buffer_size) = true
            · simp [configureFTrace, specConfigure, configWrite, runSteps, h1,
                hf, h3, h4, h5, isControlAction, Status.ok]
            · simp only [Bool.not_eq_true] at h5
              cases hse : w.setEventOpen with
              | none =>
                  simp [configureFTrace, specConfigure, enableEvents, configWrite,
                    runSteps, h1, hf, h3, h4, h5, hse, isControlAction, Status.ok]
              | some sfd =>
                  have ih := enableEventsLoop_runSteps w (root ++ "/set_event") events
                  simp [configureFTrace, specConfigure, enableEvents, configWrite,
                    runSteps, h1, hf, h3, h4, h5, hse, isControlAction, Status.ok,
                    ih.1, ih.2]

